import Mathlib

/-!
Shallow embedding of `src/src/agents/models/manual.py` (the manual-interaction
model adapter of the `multi-agent` repository) together with the host-framework
value shapes it constructs.

Modelling conventions:
* A Python attribute slot that may be missing is `Attr := Option (Option String)`:
  `none` means the attribute is absent, `some none` means it is present with value
  `None`, `some (some s)` means it holds the string `s`.
* `getattr(obj, "a", default)` is `getattrOr`; a direct access `obj.a` (which
  raises `AttributeError` when the attribute is absent) is `getattrStrict`.
* Python raising is `Except PyErr`; cancellation of the awaited provider is the
  `PyErr.cancelled` value, propagated like any other error.
* `print_fn` side effects are modelled as the accumulated list of lines handed to
  it, in order; the injected `response_provider` is modelled by the outcome of
  awaiting it, an `Except PyErr String`.
* `ItemHelpers.input_to_new_input_list` and `pprint.pformat` are code outside
  `src/` (host framework and standard library); the driver is parametric in them.
-/

namespace ManualAgents

/-- Python exception values that can propagate out of the adapter: an
`AttributeError` from a missing attribute, an arbitrary raised error, or
cancellation of the awaited provider. -/
inductive PyErr where
  | attributeError
  | raised (msg : String)
  | cancelled
deriving DecidableEq

deriving instance DecidableEq for Except

/-- A duck-typed attribute slot: absent, present `None`, or present string. -/
abbrev Attr := Option (Option String)

/-- Python truthiness of a `str | None` value: `None` and `""` are falsy. -/
def pyTruthy : Option String → Bool
  | none => false
  | some s => !(s == "")

/-- Rendering of a `str | None` value inside an f-string: `None` prints as "None". -/
def pyStr : Option String → String
  | none => "None"
  | some s => s

/-- Python `getattr(obj, name, default)`: the attribute's value when present
(possibly `None`), otherwise the default. -/
def getattrOr (a : Attr) (d : Option String) : Option String :=
  match a with
  | none => d
  | some v => v

/-- Python direct attribute access `obj.name`: raises `AttributeError` when the
attribute is absent. -/
def getattrStrict (a : Attr) : Except PyErr (Option String) :=
  match a with
  | none => Except.error PyErr.attributeError
  | some v => Except.ok v

/-- Python `a or b` on `str | None` values: `a` when truthy, else `b`. -/
def pyOrStr (a b : Option String) : Option String :=
  if pyTruthy a then a else b

/-- A duck-typed tool object as `_tool_name` / `_tool_description` probe it:
optional `name`, `description` and `tool_description` attributes, plus the
implementation type name `tool.__class__.__name__`. -/
structure ToolObj where
  name : Attr
  description : Attr
  tool_description : Attr
  class_name : String
deriving DecidableEq

/-- Embeds `_tool_name` (manual.py lines 34-35):
`getattr(tool, "name", tool.__class__.__name__)`. -/
def _tool_name (t : ToolObj) : Option String :=
  getattrOr t.name (some t.class_name)

/-- Embeds `_tool_description` (manual.py lines 38-39):
`getattr(tool, "description", None) or getattr(tool, "tool_description", None)`. -/
def _tool_description (t : ToolObj) : Option String :=
  pyOrStr (getattrOr t.description none) (getattrOr t.tool_description none)

/-- The body of the loop in `_format_tools` (manual.py lines 44-50): one display
line per tool. -/
def toolLineOf (t : ToolObj) : String :=
  let name := _tool_name t
  let description := _tool_description t
  if pyTruthy description then
    "  - " ++ pyStr name ++ ": " ++ pyStr description
  else
    "  - " ++ pyStr name

/-- Embeds `_format_tools` (manual.py lines 42-51): appends one line per tool to
an initially empty list. -/
def _format_tools (tools : List ToolObj) : List String :=
  tools.foldl (fun formatted tool => formatted ++ [toolLineOf tool]) []

/-- A duck-typed handoff object as `_format_handoffs` accesses it: `agent_name`,
`tool_name` and `tool_description` attributes, each read by direct access. -/
structure HandoffObj where
  agent_name : Attr
  tool_name : Attr
  tool_description : Attr
deriving DecidableEq

/-- The body of the loop in `_format_handoffs` (manual.py lines 56-61): reads
`handoff.tool_description`, then the f-string reads `handoff.agent_name` and
`handoff.tool_name`; each direct access raises when the attribute is absent. -/
def handoffLineOf (h : HandoffObj) : Except PyErr String := do
  let description ← getattrStrict h.tool_description
  let agentName ← getattrStrict h.agent_name
  let toolName ← getattrStrict h.tool_name
  if pyTruthy description then
    pure ("  - " ++ pyStr agentName ++ " via `" ++ pyStr toolName ++ "`: " ++ pyStr description)
  else
    pure ("  - " ++ pyStr agentName ++ " via `" ++ pyStr toolName ++ "`")

/-- Embeds `_format_handoffs` (manual.py lines 54-62); an `AttributeError` from
any iteration propagates. -/
def _format_handoffs (handoffs : List HandoffObj) : Except PyErr (List String) :=
  handoffs.foldlM (fun formatted h => do
    let line ← handoffLineOf h
    pure (formatted ++ [line])) []

/-- The `input` parameter of the driver: `str | list[TResponseInputItem]`. -/
inductive ManualInput (Item : Type) where
  | str (s : String)
  | items (l : List Item)

/-- Observable outcome of one run of `manual_prompt_interaction`: the lines
passed to `print_fn` in order, whether the response provider was awaited, and
the returned reply text or the propagated error. -/
structure InteractionResult where
  printed : List String
  providerCalled : Bool
  reply : Except PyErr String
deriving DecidableEq

/-- Embeds `manual_prompt_interaction` (manual.py lines 69-114).

`normalize` stands for `ItemHelpers.input_to_new_input_list` and `pformatItems` /
`pformatPrompt` for `pprint.pformat` — host-framework and standard-library code
outside `src/`, so the driver is parametric in them; per spec section 7,
normalization either succeeds or raises. Normalization runs first (line 81),
before any print; the transcript sections follow in the fixed source order
(lines 83-111); the provider is awaited last (lines 113-114) and its outcome is
returned unmodified. If `_format_handoffs` raises, the section header
"Available handoffs:" has already been printed (line 105) and the provider is
never reached. -/
def manual_prompt_interaction {Item Prompt : Type}
    (normalize : ManualInput Item → Except PyErr (List Item))
    (pformatItems : List Item → String)
    (pformatPrompt : Prompt → String)
    (system_instructions : Option String)
    (input : ManualInput Item)
    (tools : List ToolObj)
    (handoffs : List HandoffObj)
    (prompt : Option Prompt)
    (response_provider : Except PyErr String) : InteractionResult :=
  match normalize input with
  | Except.error e => ⟨[], false, Except.error e⟩
  | Except.ok normalized_input =>
    let header := ["=== Manual model interaction ==="]
    let sysSection :=
      if pyTruthy system_instructions then
        ["System instructions:", pyStr system_instructions]
      else
        ["System instructions: <none>"]
    let convSection := ["Conversation items:", pformatItems normalized_input]
    let promptSection :=
      match prompt with
      | some p => ["Prompt configuration:", pformatPrompt p]
      | none => []
    let toolsSection :=
      if tools.isEmpty then ["Available tools: none"]
      else "Available tools:" :: _format_tools tools
    let pre := header ++ sysSection ++ convSection ++ promptSection ++ toolsSection
    if handoffs.isEmpty then
      ⟨pre ++ ["Available handoffs: none", "Provide the next assistant message."],
        true, response_provider⟩
    else
      match _format_handoffs handoffs with
      | Except.error e => ⟨pre ++ ["Available handoffs:"], false, Except.error e⟩
      | Except.ok handoffLines =>
        ⟨pre ++ ("Available handoffs:" :: handoffLines)
            ++ ["Provide the next assistant message."],
          true, response_provider⟩

/-- One text segment of an output message: embeds `ResponseOutputText` with
`type="output_text"` and empty `annotations` (manual.py line 121). -/
structure ResponseOutputText where
  text : String
  type : String
  annots : List Unit
deriving DecidableEq

/-- Embeds `ResponseOutputMessage` with the fields `_build_output_message` sets. -/
structure ResponseOutputMessage where
  id : String
  content : List ResponseOutputText
  role : String
  status : String
  type : String
deriving DecidableEq

/-- Embeds `_RESPONSE_ID` (manual.py line 30). -/
def _RESPONSE_ID : String := "manual-response"

/-- Embeds `_MESSAGE_ID` (manual.py line 31). -/
def _MESSAGE_ID : String := "manual-message"

/-- Embeds `_build_output_message` (manual.py lines 117-126). -/
def _build_output_message (text : String) : ResponseOutputMessage :=
  ⟨_MESSAGE_ID, [⟨text, "output_text", []⟩], "assistant", "completed", "message"⟩

/-- Modelled from the spec: the host framework's `Usage` record (`agents.usage`,
not under `src/`). Spec section 3: "UsageStats: all-zero counters (input/output/
total tokens, cached tokens, reasoning tokens)"; the nested
`input_tokens_details.cached_tokens` and `output_tokens_details.reasoning_tokens`
are flattened into fields here. -/
structure Usage where
  requests : Nat
  input_tokens : Nat
  output_tokens : Nat
  total_tokens : Nat
  cached_tokens : Nat
  reasoning_tokens : Nat
deriving DecidableEq

/-- Modelled from the spec: `Usage()` — the default-constructed usage record has
every counter zero ("no real usage is incurred", spec section 3). -/
def Usage.init : Usage := ⟨0, 0, 0, 0, 0, 0⟩

/-- Embeds `InputTokensDetails` as used at manual.py lines 134-136. -/
structure InputTokensDetails where
  cached_tokens : Nat
deriving DecidableEq

/-- Embeds `OutputTokensDetails` as used at manual.py lines 137-139. -/
structure OutputTokensDetails where
  reasoning_tokens : Nat
deriving DecidableEq

/-- Embeds `ResponseUsage` with the fields `_usage_to_response_usage` sets. -/
structure ResponseUsage where
  input_tokens : Nat
  output_tokens : Nat
  total_tokens : Nat
  input_tokens_details : InputTokensDetails
  output_tokens_details : OutputTokensDetails
deriving DecidableEq

/-- Embeds `_usage_to_response_usage` (manual.py lines 129-140). -/
def _usage_to_response_usage (usage : Usage) : ResponseUsage :=
  ⟨usage.input_tokens, usage.output_tokens, usage.total_tokens,
    ⟨usage.cached_tokens⟩, ⟨usage.reasoning_tokens⟩⟩

/-- Embeds the `Response` envelope with the fields `_build_completed_event`
sets (manual.py lines 144-155); `top_p` is always passed `None`, so its slot is
`Option Unit`. -/
structure Response where
  id : String
  created_at : Nat
  model : String
  object : String
  output : List ResponseOutputMessage
  tool_choice : String
  tools : List Unit
  top_p : Option Unit
  usage : ResponseUsage
  parallel_tool_calls : Bool
deriving DecidableEq

/-- Embeds `ResponseCompletedEvent` with the fields set at manual.py lines
156-160. -/
structure ResponseCompletedEvent where
  type : String
  response : Response
  sequence_number : Nat
deriving DecidableEq

/-- Embeds `_build_completed_event` (manual.py lines 143-160). -/
def _build_completed_event (message : ResponseOutputMessage) (usage : Usage) :
    ResponseCompletedEvent :=
  ⟨"response.completed",
    ⟨_RESPONSE_ID, 0, "manual", "response", [message], "none", [], none,
      _usage_to_response_usage usage, false⟩,
    0⟩

/-- Embeds the host framework's `ModelResponse` (`agents.items`, outside `src/`)
with the three fields `get_response` fills at manual.py line 203. -/
structure ModelResponse where
  output : List ResponseOutputMessage
  usage : Usage
  response_id : String
deriving DecidableEq

/-- Observable outcome of one call to `ManualModel.get_response`: printed lines,
whether the provider was awaited, and the returned `ModelResponse` or the
propagated error. -/
structure GetResponseOutcome where
  printed : List String
  providerCalled : Bool
  result : Except PyErr ModelResponse
deriving DecidableEq

/-- Embeds `ManualModel.get_response` (manual.py lines 175-203). The unused
parameters `model_settings`, `output_schema`, `tracing`, `previous_response_id`
and `conversation_id` are deleted at line 189 without influencing the result and
are omitted here; `print_fn` and `response_provider` are the constructor-injected
configuration (lines 166-173). -/
def ManualModel.get_response {Item Prompt : Type}
    (normalize : ManualInput Item → Except PyErr (List Item))
    (pformatItems : List Item → String)
    (pformatPrompt : Prompt → String)
    (system_instructions : Option String)
    (input : ManualInput Item)
    (tools : List ToolObj)
    (handoffs : List HandoffObj)
    (prompt : Option Prompt)
    (response_provider : Except PyErr String) : GetResponseOutcome :=
  let interaction := manual_prompt_interaction normalize pformatItems pformatPrompt
      system_instructions input tools handoffs prompt response_provider
  match interaction.reply with
  | Except.error e => ⟨interaction.printed, interaction.providerCalled, Except.error e⟩
  | Except.ok response_text =>
    ⟨interaction.printed, interaction.providerCalled,
      Except.ok ⟨[_build_output_message response_text], Usage.init, _RESPONSE_ID⟩⟩

/-- The value returned by calling `ManualModel.stream_response` (manual.py lines
205-233): in Python an async generator object. Per the language semantics of
async generator functions (PEP 525), none of the body executes at call time; the
object merely captures the arguments, embedded here as this record. -/
structure StreamCall (Item Prompt : Type) where
  normalize : ManualInput Item → Except PyErr (List Item)
  pformatItems : List Item → String
  pformatPrompt : Prompt → String
  system_instructions : Option String
  input : ManualInput Item
  tools : List ToolObj
  handoffs : List HandoffObj
  prompt : Option Prompt
  response_provider : Except PyErr String

/-- Side effects performed by the call to `stream_response` itself, before the
returned sequence is iterated. -/
structure StreamCallEffects where
  printed : List String
  providerCalled : Bool
deriving DecidableEq

/-- Embeds calling `ManualModel.stream_response` (manual.py lines 205-233):
returns the unstarted generator and the (empty) effects of the call itself. -/
def ManualModel.stream_response {Item Prompt : Type}
    (normalize : ManualInput Item → Except PyErr (List Item))
    (pformatItems : List Item → String)
    (pformatPrompt : Prompt → String)
    (system_instructions : Option String)
    (input : ManualInput Item)
    (tools : List ToolObj)
    (handoffs : List HandoffObj)
    (prompt : Option Prompt)
    (response_provider : Except PyErr String) :
    StreamCallEffects × StreamCall Item Prompt :=
  (⟨[], false⟩,
    ⟨normalize, pformatItems, pformatPrompt, system_instructions, input, tools,
      handoffs, prompt, response_provider⟩)

/-- Observable outcome of iterating a stream to exhaustion: printed lines,
whether the provider was awaited, the finite list of events yielded, and the
error that escaped the iteration, if any. -/
structure StreamRunOutcome where
  printed : List String
  providerCalled : Bool
  events : List ResponseCompletedEvent
  error : Option PyErr
deriving DecidableEq

/-- Iterating the async generator of `stream_response` to exhaustion (manual.py
lines 219-233): the body runs the interaction, yields one completed event, and
then the generator body ends, terminating the sequence; an error raised before
the yield escapes with no event produced. -/
def StreamCall.run {Item Prompt : Type} (g : StreamCall Item Prompt) :
    StreamRunOutcome :=
  let interaction := manual_prompt_interaction g.normalize g.pformatItems
      g.pformatPrompt g.system_instructions g.input g.tools g.handoffs g.prompt
      g.response_provider
  match interaction.reply with
  | Except.error e => ⟨interaction.printed, interaction.providerCalled, [], some e⟩
  | Except.ok response_text =>
    ⟨interaction.printed, interaction.providerCalled,
      [_build_completed_event (_build_output_message response_text) Usage.init], none⟩

/-- State-passing view of `get_response`: Python hands the caller's `input`
object to the call by reference, so the embedding threads it through and
returns it alongside the outcome. `manual.py` only reads `input` (line 81
passes it to the normalization utility; lines 191-196 pass it through) and
performs no assignment or in-place operation on it; the normalization utility
`ItemHelpers.input_to_new_input_list` is outside `src/` and is modelled from
the spec: it "produces a canonical ordered sequence of items" (spec section
4.2) and conversation items are "Immutable; supplied by caller, never mutated"
(spec section 3), so normalization builds a new sequence rather than editing
its argument. -/
def ManualModel.get_response_st {Item Prompt : Type}
    (normalize : ManualInput Item → Except PyErr (List Item))
    (pformatItems : List Item → String)
    (pformatPrompt : Prompt → String)
    (system_instructions : Option String)
    (input : ManualInput Item)
    (tools : List ToolObj)
    (handoffs : List HandoffObj)
    (prompt : Option Prompt)
    (response_provider : Except PyErr String) :
    GetResponseOutcome × ManualInput Item :=
  (ManualModel.get_response normalize pformatItems pformatPrompt
      system_instructions input tools handoffs prompt response_provider,
    input)

/-- State-passing view of a full `stream_response` call followed by iterating
the stream to exhaustion, threading the caller's `input` object (see
`ManualModel.get_response_st` for why the source never mutates it). -/
def ManualModel.stream_response_st {Item Prompt : Type}
    (normalize : ManualInput Item → Except PyErr (List Item))
    (pformatItems : List Item → String)
    (pformatPrompt : Prompt → String)
    (system_instructions : Option String)
    (input : ManualInput Item)
    (tools : List ToolObj)
    (handoffs : List HandoffObj)
    (prompt : Option Prompt)
    (response_provider : Except PyErr String) :
    StreamRunOutcome × ManualInput Item :=
  (((ManualModel.stream_response normalize pformatItems pformatPrompt
      system_instructions input tools handoffs prompt response_provider).2).run,
    input)

/-! Helper lemmas shared by the claim theorems. -/

/-- Folding with per-element append is `map`. -/
theorem foldl_append_singleton_eq_map {α β : Type} (f : α → β) :
    ∀ (l : List α) (acc : List β),
      l.foldl (fun a x => a ++ [f x]) acc = acc ++ l.map f := by
  intro l
  induction l with
  | nil => intro acc; simp
  | cons x xs ih =>
    intro acc
    simp [List.foldl_cons, ih (acc ++ [f x])]

/-- When normalization and handoff formatting succeed, the interaction prints
the full fixed transcript in order, awaits the provider, and returns its
outcome unmodified. -/
theorem interaction_of_ok {Item Prompt : Type}
    (normalize : ManualInput Item → Except PyErr (List Item))
    (pformatItems : List Item → String)
    (pformatPrompt : Prompt → String)
    (system_instructions : Option String)
    (input : ManualInput Item)
    (tools : List ToolObj)
    (handoffs : List HandoffObj)
    (prompt : Option Prompt)
    (response_provider : Except PyErr String)
    (items : List Item) (handoffLines : List String)
    (hn : normalize input = Except.ok items)
    (hh : _format_handoffs handoffs = Except.ok handoffLines) :
    manual_prompt_interaction normalize pformatItems pformatPrompt
        system_instructions input tools handoffs prompt response_provider =
      ⟨["=== Manual model interaction ==="]
        ++ (if pyTruthy system_instructions then
              ["System instructions:", pyStr system_instructions]
            else ["System instructions: <none>"])
        ++ ["Conversation items:", pformatItems items]
        ++ (match prompt with
            | some p => ["Prompt configuration:", pformatPrompt p]
            | none => [])
        ++ (if tools.isEmpty then ["Available tools: none"]
            else "Available tools:" :: _format_tools tools)
        ++ (if handoffs.isEmpty then ["Available handoffs: none"]
            else "Available handoffs:" :: handoffLines)
        ++ ["Provide the next assistant message."],
        true, response_provider⟩ := by
  unfold manual_prompt_interaction
  rw [hn]
  cases hemp : handoffs.isEmpty with
  | true => simp
  | false => simp [hh]

/-- The interaction's reply is the provider's outcome or an error raised before
the provider was reached (and in the latter case the provider was not called). -/
theorem interaction_reply_cases {Item Prompt : Type}
    (normalize : ManualInput Item → Except PyErr (List Item))
    (pformatItems : List Item → String)
    (pformatPrompt : Prompt → String)
    (system_instructions : Option String)
    (input : ManualInput Item)
    (tools : List ToolObj)
    (handoffs : List HandoffObj)
    (prompt : Option Prompt)
    (response_provider : Except PyErr String) :
    (manual_prompt_interaction normalize pformatItems pformatPrompt
        system_instructions input tools handoffs prompt response_provider).reply
      = response_provider
    ∨ ∃ e, (manual_prompt_interaction normalize pformatItems pformatPrompt
        system_instructions input tools handoffs prompt response_provider).reply
      = Except.error e := by
  unfold manual_prompt_interaction
  cases hno : normalize input with
  | error e => exact Or.inr ⟨e, rfl⟩
  | ok items =>
    cases hemp : handoffs.isEmpty with
    | true => simp
    | false =>
      cases hfh : _format_handoffs handoffs with
      | error e => simp [hfh]
      | ok handoffLines => simp [hfh]

/-- Reading off `get_response` when the interaction's reply succeeded. -/
theorem get_response_result_of_reply_ok {Item Prompt : Type}
    (normalize : ManualInput Item → Except PyErr (List Item))
    (pformatItems : List Item → String)
    (pformatPrompt : Prompt → String)
    (system_instructions : Option String)
    (input : ManualInput Item)
    (tools : List ToolObj)
    (handoffs : List HandoffObj)
    (prompt : Option Prompt)
    (response_provider : Except PyErr String)
    (t : String)
    (h : (manual_prompt_interaction normalize pformatItems pformatPrompt
        system_instructions input tools handoffs prompt response_provider).reply
      = Except.ok t) :
    (ManualModel.get_response normalize pformatItems pformatPrompt
        system_instructions input tools handoffs prompt response_provider).result
      = Except.ok ⟨[_build_output_message t], Usage.init, _RESPONSE_ID⟩ := by
  unfold ManualModel.get_response
  simp only [h]

/-- Reading off `get_response` when the interaction raised. -/
theorem get_response_result_of_reply_error {Item Prompt : Type}
    (normalize : ManualInput Item → Except PyErr (List Item))
    (pformatItems : List Item → String)
    (pformatPrompt : Prompt → String)
    (system_instructions : Option String)
    (input : ManualInput Item)
    (tools : List ToolObj)
    (handoffs : List HandoffObj)
    (prompt : Option Prompt)
    (response_provider : Except PyErr String)
    (e : PyErr)
    (h : (manual_prompt_interaction normalize pformatItems pformatPrompt
        system_instructions input tools handoffs prompt response_provider).reply
      = Except.error e) :
    (ManualModel.get_response normalize pformatItems pformatPrompt
        system_instructions input tools handoffs prompt response_provider).result
      = Except.error e := by
  unfold ManualModel.get_response
  simp only [h]

/-- Reading off a stream run when the interaction's reply succeeded. -/
theorem stream_run_of_reply_ok {Item Prompt : Type}
    (g : StreamCall Item Prompt) (t : String)
    (h : (manual_prompt_interaction g.normalize g.pformatItems g.pformatPrompt
        g.system_instructions g.input g.tools g.handoffs g.prompt
        g.response_provider).reply = Except.ok t) :
    g.run = ⟨(manual_prompt_interaction g.normalize g.pformatItems g.pformatPrompt
        g.system_instructions g.input g.tools g.handoffs g.prompt
        g.response_provider).printed,
      (manual_prompt_interaction g.normalize g.pformatItems g.pformatPrompt
        g.system_instructions g.input g.tools g.handoffs g.prompt
        g.response_provider).providerCalled,
      [_build_completed_event (_build_output_message t) Usage.init], none⟩ := by
  unfold StreamCall.run
  simp only [h]

/-- Reading off a stream run when the interaction raised. -/
theorem stream_run_of_reply_error {Item Prompt : Type}
    (g : StreamCall Item Prompt) (e : PyErr)
    (h : (manual_prompt_interaction g.normalize g.pformatItems g.pformatPrompt
        g.system_instructions g.input g.tools g.handoffs g.prompt
        g.response_provider).reply = Except.error e) :
    g.run = ⟨(manual_prompt_interaction g.normalize g.pformatItems g.pformatPrompt
        g.system_instructions g.input g.tools g.handoffs g.prompt
        g.response_provider).printed,
      (manual_prompt_interaction g.normalize g.pformatItems g.pformatPrompt
        g.system_instructions g.input g.tools g.handoffs g.prompt
        g.response_provider).providerCalled,
      [], some e⟩ := by
  unfold StreamCall.run
  simp only [h]

/-- Pushing `Except.ok` out of a conditional. -/
theorem ite_ok_push {α : Type} {c : Prop} [Decidable c] (a b : α) :
    (if c then (Except.ok a : Except PyErr α) else Except.ok b)
      = Except.ok (if c then a else b) := by
  by_cases h : c <;> simp [h]

/-! The claims. -/

/-- C1: For every reply text `T` returned by the injected response provider,
`get_response` returns a result whose output list contains exactly one message,
that message's content list contains exactly one text segment whose text equals
`T` character for character (no trimming, no truncation), and every counter of
the returned usage record (input, output, total, cached, reasoning tokens — and
requests) is zero. -/
theorem get_response_returns_reply_verbatim_with_zero_usage {Item Prompt : Type}
    (normalize : ManualInput Item → Except PyErr (List Item))
    (pformatItems : List Item → String)
    (pformatPrompt : Prompt → String)
    (system_instructions : Option String)
    (input : ManualInput Item)
    (tools : List ToolObj)
    (handoffs : List HandoffObj)
    (prompt : Option Prompt)
    (T : String) (r : ModelResponse)
    (hr : (ManualModel.get_response normalize pformatItems pformatPrompt
        system_instructions input tools handoffs prompt (Except.ok T)).result
      = Except.ok r) :
    (∃ msg seg, r.output = [msg] ∧ msg.content = [seg] ∧ seg.text = T) ∧
    r.usage.input_tokens = 0 ∧ r.usage.output_tokens = 0 ∧
    r.usage.total_tokens = 0 ∧ r.usage.cached_tokens = 0 ∧
    r.usage.reasoning_tokens = 0 ∧ r.usage.requests = 0 := by
  rcases interaction_reply_cases normalize pformatItems pformatPrompt
      system_instructions input tools handoffs prompt (Except.ok T) with hok | ⟨e, he⟩
  · rw [get_response_result_of_reply_ok normalize pformatItems pformatPrompt
        system_instructions input tools handoffs prompt (Except.ok T) T hok] at hr
    injection hr with hr
    subst hr
    exact ⟨⟨_build_output_message T, ⟨T, "output_text", []⟩, rfl, rfl, rfl⟩,
      rfl, rfl, rfl, rfl, rfl, rfl⟩
  · rw [get_response_result_of_reply_error normalize pformatItems pformatPrompt
        system_instructions input tools handoffs prompt (Except.ok T) e he] at hr
    simp at hr

/-- Witness for C1, at the test scenario's inputs. -/
theorem get_response_returns_reply_verbatim_with_zero_usage_witness :
    (∃ msg seg,
        (ModelResponse.mk [_build_output_message "Manual reply"] Usage.init
          _RESPONSE_ID).output = [msg] ∧ msg.content = [seg] ∧
        seg.text = "Manual reply") ∧
    (ModelResponse.mk [_build_output_message "Manual reply"] Usage.init
        _RESPONSE_ID).usage.input_tokens = 0 ∧
    (ModelResponse.mk [_build_output_message "Manual reply"] Usage.init
        _RESPONSE_ID).usage.output_tokens = 0 ∧
    (ModelResponse.mk [_build_output_message "Manual reply"] Usage.init
        _RESPONSE_ID).usage.total_tokens = 0 ∧
    (ModelResponse.mk [_build_output_message "Manual reply"] Usage.init
        _RESPONSE_ID).usage.cached_tokens = 0 ∧
    (ModelResponse.mk [_build_output_message "Manual reply"] Usage.init
        _RESPONSE_ID).usage.reasoning_tokens = 0 ∧
    (ModelResponse.mk [_build_output_message "Manual reply"] Usage.init
        _RESPONSE_ID).usage.requests = 0 :=
  get_response_returns_reply_verbatim_with_zero_usage
    (fun _ => Except.ok ([] : List Unit)) (fun _ => "[]") (fun _ : Unit => "")
    (some "Be concise.") (ManualInput.str "Hello") [] [] none "Manual reply"
    (ModelResponse.mk [_build_output_message "Manual reply"] Usage.init _RESPONSE_ID)
    rfl

/-- C2: For every reply text `T` returned by the provider (with normalization
and handoff formatting succeeding), iterating the stream returned by
`stream_response` yields exactly one event and then terminates; that event is
the completed kind and its wrapped response's single output message has exactly
one content segment whose text equals `T`; no other event of any kind is
produced. -/
theorem stream_response_yields_single_completed_event {Item Prompt : Type}
    (normalize : ManualInput Item → Except PyErr (List Item))
    (pformatItems : List Item → String)
    (pformatPrompt : Prompt → String)
    (system_instructions : Option String)
    (input : ManualInput Item)
    (tools : List ToolObj)
    (handoffs : List HandoffObj)
    (prompt : Option Prompt)
    (T : String) (items : List Item) (handoffLines : List String)
    (hn : normalize input = Except.ok items)
    (hh : _format_handoffs handoffs = Except.ok handoffLines) :
    ∃ ev, ((ManualModel.stream_response normalize pformatItems pformatPrompt
        system_instructions input tools handoffs prompt (Except.ok T)).2).run.events
        = [ev] ∧
      ((ManualModel.stream_response normalize pformatItems pformatPrompt
        system_instructions input tools handoffs prompt (Except.ok T)).2).run.error
        = none ∧
      ev.type = "response.completed" ∧
      ∃ msg seg, ev.response.output = [msg] ∧ msg.content = [seg] ∧ seg.text = T := by
  have hi := interaction_of_ok normalize pformatItems pformatPrompt
      system_instructions input tools handoffs prompt (Except.ok T) items
      handoffLines hn hh
  have hrep : (manual_prompt_interaction normalize pformatItems pformatPrompt
      system_instructions input tools handoffs prompt (Except.ok T)).reply
        = Except.ok T := by rw [hi]
  have hrun := stream_run_of_reply_ok
    ((ManualModel.stream_response normalize pformatItems pformatPrompt
        system_instructions input tools handoffs prompt (Except.ok T)).2) T hrep
  exact ⟨_build_completed_event (_build_output_message T) Usage.init,
    by rw [hrun], by rw [hrun], rfl,
    _build_output_message T, ⟨T, "output_text", []⟩, rfl, rfl, rfl⟩

/-- Witness for C2, at the streaming test scenario's inputs. -/
theorem stream_response_yields_single_completed_event_witness :
    ∃ ev, ((ManualModel.stream_response (fun _ => Except.ok ([] : List Unit))
        (fun _ => "[]") (fun _ : Unit => "") none (ManualInput.items []) [] []
        none (Except.ok "Streamed manual response")).2).run.events = [ev] ∧
      ((ManualModel.stream_response (fun _ => Except.ok ([] : List Unit))
        (fun _ => "[]") (fun _ : Unit => "") none (ManualInput.items []) [] []
        none (Except.ok "Streamed manual response")).2).run.error = none ∧
      ev.type = "response.completed" ∧
      ∃ msg seg, ev.response.output = [msg] ∧ msg.content = [seg] ∧
        seg.text = "Streamed manual response" :=
  stream_response_yields_single_completed_event
    (fun _ => Except.ok ([] : List Unit)) (fun _ => "[]") (fun _ : Unit => "")
    none (ManualInput.items []) [] [] none "Streamed manual response" [] []
    rfl rfl

/-- C3: The lines passed to `print_fn` occur in the fixed order: header, then
the system-instructions section (the header line "System instructions:" and the
literal text when the instructions are present and non-empty, else the single
line "System instructions: <none>"), then "Conversation items:" and the dump of
the normalized input, then — only when a prompt configuration is present —
"Prompt configuration:" and its dump, then the tools section, then the handoffs
section, then the trailer line last. -/
theorem transcript_fixed_order {Item Prompt : Type}
    (normalize : ManualInput Item → Except PyErr (List Item))
    (pformatItems : List Item → String)
    (pformatPrompt : Prompt → String)
    (system_instructions : Option String)
    (input : ManualInput Item)
    (tools : List ToolObj)
    (handoffs : List HandoffObj)
    (prompt : Option Prompt)
    (response_provider : Except PyErr String)
    (items : List Item) (handoffLines : List String)
    (hn : normalize input = Except.ok items)
    (hh : _format_handoffs handoffs = Except.ok handoffLines) :
    (manual_prompt_interaction normalize pformatItems pformatPrompt
        system_instructions input tools handoffs prompt response_provider).printed =
      ["=== Manual model interaction ==="]
      ++ (if pyTruthy system_instructions then
            ["System instructions:", pyStr system_instructions]
          else ["System instructions: <none>"])
      ++ ["Conversation items:", pformatItems items]
      ++ (match prompt with
          | some p => ["Prompt configuration:", pformatPrompt p]
          | none => [])
      ++ (if tools.isEmpty then ["Available tools: none"]
          else "Available tools:" :: _format_tools tools)
      ++ (if handoffs.isEmpty then ["Available handoffs: none"]
          else "Available handoffs:" :: handoffLines)
      ++ ["Provide the next assistant message."] := by
  rw [interaction_of_ok normalize pformatItems pformatPrompt system_instructions
      input tools handoffs prompt response_provider items handoffLines hn hh]

/-- Witness for C3, at the test scenario's inputs: one tool, one handoff,
non-empty system instructions, no prompt configuration. -/
theorem transcript_fixed_order_witness :
    (manual_prompt_interaction (fun _ => Except.ok ([] : List Unit))
        (fun _ => "[]") (fun _ : Unit => "") (some "Be concise.")
        (ManualInput.str "Hello")
        [ToolObj.mk (some (some "test_tool")) (some (some "A simple helper."))
          none "FunctionTool"]
        [HandoffObj.mk (some (some "Helper")) (some (some "transfer_to_helper"))
          (some (some "Transfer to helper agent."))]
        none (Except.ok "Manual reply")).printed =
      ["=== Manual model interaction ==="]
      ++ (if pyTruthy (some "Be concise.") then
            ["System instructions:", pyStr (some "Be concise.")]
          else ["System instructions: <none>"])
      ++ ["Conversation items:", (fun _ => "[]") ([] : List Unit)]
      ++ (match (none : Option Unit) with
          | some p => ["Prompt configuration:", (fun _ : Unit => "") p]
          | none => [])
      ++ (if [ToolObj.mk (some (some "test_tool")) (some (some "A simple helper."))
            none "FunctionTool"].isEmpty then ["Available tools: none"]
          else "Available tools:" :: _format_tools
            [ToolObj.mk (some (some "test_tool")) (some (some "A simple helper."))
              none "FunctionTool"])
      ++ (if [HandoffObj.mk (some (some "Helper")) (some (some "transfer_to_helper"))
            (some (some "Transfer to helper agent."))].isEmpty then
            ["Available handoffs: none"]
          else "Available handoffs:" ::
            ["  - Helper via `transfer_to_helper`: Transfer to helper agent."])
      ++ ["Provide the next assistant message."] :=
  transcript_fixed_order (fun _ => Except.ok ([] : List Unit)) (fun _ => "[]")
    (fun _ : Unit => "") (some "Be concise.") (ManualInput.str "Hello")
    [ToolObj.mk (some (some "test_tool")) (some (some "A simple helper."))
      none "FunctionTool"]
    [HandoffObj.mk (some (some "Helper")) (some (some "transfer_to_helper"))
      (some (some "Transfer to helper agent."))]
    none (Except.ok "Manual reply") []
    ["  - Helper via `transfer_to_helper`: Transfer to helper agent."]
    rfl rfl

/-- C4: The tool formatter returns one line per tool in input order (empty
input yields the empty sequence); the name comes from the `name` attribute,
falling back to the implementation type name when the attribute is absent; the
description is looked up under `description` then `tool_description`, the first
(truthy) match winning; the emitted line is exactly "  - name: description"
when a description exists and exactly "  - name" otherwise. -/
theorem format_tools_lines (ts : List ToolObj) :
    _format_tools ts = ts.map toolLineOf ∧
    _format_tools ([] : List ToolObj) = [] ∧
    (∀ t : ToolObj, toolLineOf t =
      if pyTruthy (_tool_description t) then
        "  - " ++ pyStr (_tool_name t) ++ ": " ++ pyStr (_tool_description t)
      else "  - " ++ pyStr (_tool_name t)) ∧
    (∀ t : ToolObj, _tool_name t =
      match t.name with
      | none => some t.class_name
      | some v => v) ∧
    (∀ t : ToolObj, _tool_description t =
      if pyTruthy (getattrOr t.description none) then getattrOr t.description none
      else getattrOr t.tool_description none) := by
  refine ⟨foldl_append_singleton_eq_map toolLineOf ts [], rfl,
    fun t => rfl, fun t => ?_, fun t => rfl⟩
  cases h : t.name <;> simp [_tool_name, getattrOr, h]

/-- C5 counterexample: a handoff descriptor missing the `agent_name` attribute
makes handoff formatting raise `AttributeError` — it does not fall back to the
object's implementation type name and does not tolerate the missing attribute,
so the claimed tolerance does not hold for handoff descriptors. -/
theorem handoff_missing_attribute_raises :
    _format_handoffs [HandoffObj.mk none (some (some "transfer_to_helper"))
        (some (some "Transfer to helper agent."))]
      = Except.error PyErr.attributeError := rfl

/-- C5 amended: tool formatting never raises — an absent `name` attribute falls
back to the implementation type name and an absent description omits that
portion of the line. Handoff formatting never raises only when all three
accessed attributes (`tool_description`, `agent_name`, `tool_name`) are
present — a present-but-falsy description merely omits the description
portion — while a handoff descriptor missing any of those attributes makes
formatting raise `AttributeError`. -/
theorem descriptor_formatting_tolerance :
    (∀ (d td : Attr) (cls : String), _tool_name (ToolObj.mk none d td cls) = some cls) ∧
    (∀ (n : Attr) (cls : String),
      toolLineOf (ToolObj.mk n none none cls)
        = "  - " ++ pyStr (_tool_name (ToolObj.mk n none none cls))) ∧
    (∀ (an tn d : Option String),
      handoffLineOf (HandoffObj.mk (some an) (some tn) (some d))
        = Except.ok (if pyTruthy d then
            "  - " ++ pyStr an ++ " via `" ++ pyStr tn ++ "`: " ++ pyStr d
          else "  - " ++ pyStr an ++ " via `" ++ pyStr tn ++ "`")) ∧
    (∀ (an tn : Attr), handoffLineOf (HandoffObj.mk an tn none)
        = Except.error PyErr.attributeError) ∧
    (∀ (tn : Attr) (d : Option String),
      handoffLineOf (HandoffObj.mk none tn (some d))
        = Except.error PyErr.attributeError) ∧
    (∀ (an d : Option String),
      handoffLineOf (HandoffObj.mk (some an) none (some d))
        = Except.error PyErr.attributeError) :=
  ⟨fun _ _ _ => rfl, fun _ _ => rfl,
    fun _ _ _ => ite_ok_push _ _,
    fun _ _ => rfl, fun _ _ => rfl, fun _ _ => rfl⟩

/-- C6 counterexample: a stream run does produce an event, and that event's
`type` field is "response.completed", not the claimed literal "completed". -/
theorem stream_event_type_not_completed :
    ((ManualModel.stream_response (fun _ => Except.ok ([] : List Unit))
        (fun _ => "[]") (fun _ : Unit => "") none (ManualInput.items []) [] []
        none (Except.ok "Streamed manual response")).2).run.events
      = [_build_completed_event (_build_output_message "Streamed manual response")
          Usage.init] ∧
    (_build_completed_event (_build_output_message "Streamed manual response")
        Usage.init).type ≠ "completed" :=
  ⟨rfl, by decide⟩

/-- C6 amended: every response produced by `get_response` or `stream_response`
carries the same fixed constants — response id "manual-response", message id
"manual-message", model "manual", createdAt 0, toolChoice "none", an empty
tools list, parallelToolCalls false — and every stream event has type
"response.completed" (the completed-event kind) and sequence number 0. -/
theorem fixed_response_constants {Item Prompt : Type}
    (normalize : ManualInput Item → Except PyErr (List Item))
    (pformatItems : List Item → String)
    (pformatPrompt : Prompt → String)
    (system_instructions : Option String)
    (input : ManualInput Item)
    (tools : List ToolObj)
    (handoffs : List HandoffObj)
    (prompt : Option Prompt)
    (T : String) (r : ModelResponse)
    (hr : (ManualModel.get_response normalize pformatItems pformatPrompt
        system_instructions input tools handoffs prompt (Except.ok T)).result
      = Except.ok r) :
    r.response_id = "manual-response" ∧
    (∀ m ∈ r.output, m.id = "manual-message") ∧
    (∀ ev ∈ ((ManualModel.stream_response normalize pformatItems pformatPrompt
        system_instructions input tools handoffs prompt (Except.ok T)).2).run.events,
      ev.type = "response.completed" ∧ ev.sequence_number = 0 ∧
      ev.response.id = "manual-response" ∧ ev.response.created_at = 0 ∧
      ev.response.model = "manual" ∧ ev.response.tool_choice = "none" ∧
      ev.response.tools = [] ∧ ev.response.parallel_tool_calls = false ∧
      ∀ m ∈ ev.response.output, m.id = "manual-message") := by
  rcases interaction_reply_cases normalize pformatItems pformatPrompt
      system_instructions input tools handoffs prompt (Except.ok T) with hok | ⟨e, he⟩
  · rw [get_response_result_of_reply_ok normalize pformatItems pformatPrompt
        system_instructions input tools handoffs prompt (Except.ok T) T hok] at hr
    injection hr with hr
    subst hr
    have hrun := stream_run_of_reply_ok
      ((ManualModel.stream_response normalize pformatItems pformatPrompt
          system_instructions input tools handoffs prompt (Except.ok T)).2) T hok
    refine ⟨rfl, ?_, ?_⟩
    · intro m hm
      rw [List.mem_singleton] at hm
      subst hm
      rfl
    · intro ev hev
      rw [hrun] at hev
      simp only [List.mem_singleton] at hev
      subst hev
      exact ⟨rfl, rfl, rfl, rfl, rfl, rfl, rfl, rfl, by
        intro m hm
        have hm' : m ∈ [_build_output_message T] := hm
        rw [List.mem_singleton] at hm'
        subst hm'
        rfl⟩
  · rw [get_response_result_of_reply_error normalize pformatItems pformatPrompt
        system_instructions input tools handoffs prompt (Except.ok T) e he] at hr
    simp at hr

/-- Witness for C6's amended theorem, at the streaming test scenario's inputs. -/
theorem fixed_response_constants_witness :
    (ModelResponse.mk [_build_output_message "Streamed manual response"]
        Usage.init _RESPONSE_ID).response_id = "manual-response" ∧
    (∀ m ∈ (ModelResponse.mk [_build_output_message "Streamed manual response"]
        Usage.init _RESPONSE_ID).output, m.id = "manual-message") ∧
    (∀ ev ∈ ((ManualModel.stream_response (fun _ => Except.ok ([] : List Unit))
        (fun _ => "[]") (fun _ : Unit => "") none (ManualInput.items []) [] []
        none (Except.ok "Streamed manual response")).2).run.events,
      ev.type = "response.completed" ∧ ev.sequence_number = 0 ∧
      ev.response.id = "manual-response" ∧ ev.response.created_at = 0 ∧
      ev.response.model = "manual" ∧ ev.response.tool_choice = "none" ∧
      ev.response.tools = [] ∧ ev.response.parallel_tool_calls = false ∧
      ∀ m ∈ ev.response.output, m.id = "manual-message") :=
  fixed_response_constants (fun _ => Except.ok ([] : List Unit)) (fun _ => "[]")
    (fun _ : Unit => "") none (ManualInput.items []) [] [] none
    "Streamed manual response"
    (ModelResponse.mk [_build_output_message "Streamed manual response"]
      Usage.init _RESPONSE_ID) rfl

/-- C7: If the reply provider raises or is cancelled, the failure propagates to
the caller unmodified — `get_response` returns exactly that error (no retry, no
default reply, no partial response), and the stream produces no event and
escapes with exactly that error. -/
theorem provider_failure_propagates {Item Prompt : Type}
    (normalize : ManualInput Item → Except PyErr (List Item))
    (pformatItems : List Item → String)
    (pformatPrompt : Prompt → String)
    (system_instructions : Option String)
    (input : ManualInput Item)
    (tools : List ToolObj)
    (handoffs : List HandoffObj)
    (prompt : Option Prompt)
    (e : PyErr) (items : List Item) (handoffLines : List String)
    (hn : normalize input = Except.ok items)
    (hh : _format_handoffs handoffs = Except.ok handoffLines) :
    (ManualModel.get_response normalize pformatItems pformatPrompt
        system_instructions input tools handoffs prompt (Except.error e)).result
      = Except.error e ∧
    ((ManualModel.stream_response normalize pformatItems pformatPrompt
        system_instructions input tools handoffs prompt (Except.error e)).2).run.events
      = [] ∧
    ((ManualModel.stream_response normalize pformatItems pformatPrompt
        system_instructions input tools handoffs prompt (Except.error e)).2).run.error
      = some e := by
  have hi := interaction_of_ok normalize pformatItems pformatPrompt
      system_instructions input tools handoffs prompt (Except.error e) items
      handoffLines hn hh
  have hrep : (manual_prompt_interaction normalize pformatItems pformatPrompt
      system_instructions input tools handoffs prompt (Except.error e)).reply
        = Except.error e := by rw [hi]
  have hrun := stream_run_of_reply_error
    ((ManualModel.stream_response normalize pformatItems pformatPrompt
        system_instructions input tools handoffs prompt (Except.error e)).2) e hrep
  exact ⟨get_response_result_of_reply_error normalize pformatItems pformatPrompt
      system_instructions input tools handoffs prompt (Except.error e) e hrep,
    by rw [hrun], by rw [hrun]⟩

/-- Witness for C7: a cancelled provider propagates as-is. -/
theorem provider_failure_propagates_witness :
    (ManualModel.get_response (fun _ => Except.ok ([] : List Unit))
        (fun _ => "[]") (fun _ : Unit => "") (some "Be concise.")
        (ManualInput.str "Hello") [] [] none
        (Except.error PyErr.cancelled)).result = Except.error PyErr.cancelled ∧
    ((ManualModel.stream_response (fun _ => Except.ok ([] : List Unit))
        (fun _ => "[]") (fun _ : Unit => "") (some "Be concise.")
        (ManualInput.str "Hello") [] [] none
        (Except.error PyErr.cancelled)).2).run.events = [] ∧
    ((ManualModel.stream_response (fun _ => Except.ok ([] : List Unit))
        (fun _ => "[]") (fun _ : Unit => "") (some "Be concise.")
        (ManualInput.str "Hello") [] [] none
        (Except.error PyErr.cancelled)).2).run.error = some PyErr.cancelled :=
  provider_failure_propagates (fun _ => Except.ok ([] : List Unit))
    (fun _ => "[]") (fun _ : Unit => "") (some "Be concise.")
    (ManualInput.str "Hello") [] [] none PyErr.cancelled [] [] rfl rfl

/-- C8: Neither `get_response` nor `stream_response` mutates the
caller-supplied conversation input: in the state-passing view of both
operations the threaded input comes back exactly as it was passed in —
normalization produces a new canonical sequence instead of editing its
argument. -/
theorem input_not_mutated {Item Prompt : Type}
    (normalize : ManualInput Item → Except PyErr (List Item))
    (pformatItems : List Item → String)
    (pformatPrompt : Prompt → String)
    (system_instructions : Option String)
    (input : ManualInput Item)
    (tools : List ToolObj)
    (handoffs : List HandoffObj)
    (prompt : Option Prompt)
    (response_provider : Except PyErr String) :
    (ManualModel.get_response_st normalize pformatItems pformatPrompt
        system_instructions input tools handoffs prompt response_provider).2
      = input ∧
    (ManualModel.stream_response_st normalize pformatItems pformatPrompt
        system_instructions input tools handoffs prompt response_provider).2
      = input :=
  ⟨rfl, rfl⟩

/-- C9: If normalization of the conversation input raises, the interaction
fails atomically before producing any output: no transcript line (not even the
header) has been passed to `print_fn`, the reply provider is never invoked, and
the error propagates — normalization runs before the first print call. -/
theorem normalization_failure_prints_nothing {Item Prompt : Type}
    (normalize : ManualInput Item → Except PyErr (List Item))
    (pformatItems : List Item → String)
    (pformatPrompt : Prompt → String)
    (system_instructions : Option String)
    (input : ManualInput Item)
    (tools : List ToolObj)
    (handoffs : List HandoffObj)
    (prompt : Option Prompt)
    (response_provider : Except PyErr String)
    (e : PyErr)
    (hn : normalize input = Except.error e) :
    manual_prompt_interaction normalize pformatItems pformatPrompt
        system_instructions input tools handoffs prompt response_provider
      = ⟨[], false, Except.error e⟩ ∧
    (ManualModel.get_response normalize pformatItems pformatPrompt
        system_instructions input tools handoffs prompt response_provider).printed
      = [] ∧
    (ManualModel.get_response normalize pformatItems pformatPrompt
        system_instructions input tools handoffs prompt
        response_provider).providerCalled
      = false := by
  have h1 : manual_prompt_interaction normalize pformatItems pformatPrompt
      system_instructions input tools handoffs prompt response_provider
    = ⟨[], false, Except.error e⟩ := by
    unfold manual_prompt_interaction
    rw [hn]
  refine ⟨h1, ?_, ?_⟩ <;>
    · unfold ManualModel.get_response
      rw [h1]

/-- Witness for C9: a normalizer that raises on every input. -/
theorem normalization_failure_prints_nothing_witness :
    manual_prompt_interaction
        (fun _ : ManualInput Unit => Except.error (PyErr.raised "bad input"))
        (fun _ => "[]") (fun _ : Unit => "") (some "Be concise.")
        (ManualInput.str "Hello") [] [] none (Except.ok "Manual reply")
      = ⟨[], false, Except.error (PyErr.raised "bad input")⟩ ∧
    (ManualModel.get_response
        (fun _ : ManualInput Unit => Except.error (PyErr.raised "bad input"))
        (fun _ => "[]") (fun _ : Unit => "") (some "Be concise.")
        (ManualInput.str "Hello") [] [] none (Except.ok "Manual reply")).printed
      = [] ∧
    (ManualModel.get_response
        (fun _ : ManualInput Unit => Except.error (PyErr.raised "bad input"))
        (fun _ => "[]") (fun _ : Unit => "") (some "Be concise.")
        (ManualInput.str "Hello") [] [] none
        (Except.ok "Manual reply")).providerCalled
      = false :=
  normalization_failure_prints_nothing
    (fun _ : ManualInput Unit => Except.error (PyErr.raised "bad input"))
    (fun _ => "[]") (fun _ : Unit => "") (some "Be concise.")
    (ManualInput.str "Hello") [] [] none (Except.ok "Manual reply")
    (PyErr.raised "bad input") rfl

/-- C10: Calling `stream_response` has no side effect by itself: the call
returns the unstarted generator with nothing printed and the provider not
consulted; the transcript printing and the provider call happen only when the
returned sequence is iterated (their effects appear on the run, equal to the
interaction's effects). -/
theorem stream_response_call_is_lazy {Item Prompt : Type}
    (normalize : ManualInput Item → Except PyErr (List Item))
    (pformatItems : List Item → String)
    (pformatPrompt : Prompt → String)
    (system_instructions : Option String)
    (input : ManualInput Item)
    (tools : List ToolObj)
    (handoffs : List HandoffObj)
    (prompt : Option Prompt)
    (response_provider : Except PyErr String) :
    (ManualModel.stream_response normalize pformatItems pformatPrompt
        system_instructions input tools handoffs prompt response_provider).1
      = ⟨[], false⟩ ∧
    ((ManualModel.stream_response normalize pformatItems pformatPrompt
        system_instructions input tools handoffs prompt
        response_provider).2).run.printed
      = (manual_prompt_interaction normalize pformatItems pformatPrompt
          system_instructions input tools handoffs prompt
          response_provider).printed ∧
    ((ManualModel.stream_response normalize pformatItems pformatPrompt
        system_instructions input tools handoffs prompt
        response_provider).2).run.providerCalled
      = (manual_prompt_interaction normalize pformatItems pformatPrompt
          system_instructions input tools handoffs prompt
          response_provider).providerCalled := by
  refine ⟨rfl, ?_, ?_⟩ <;>
    · cases hrep : (manual_prompt_interaction normalize pformatItems
          pformatPrompt system_instructions input tools handoffs prompt
          response_provider).reply with
      | error e =>
        rw [stream_run_of_reply_error
          ((ManualModel.stream_response normalize pformatItems pformatPrompt
              system_instructions input tools handoffs prompt
              response_provider).2) e hrep]
        rfl
      | ok t =>
        rw [stream_run_of_reply_ok
          ((ManualModel.stream_response normalize pformatItems pformatPrompt
              system_instructions input tools handoffs prompt
              response_provider).2) t hrep]
        rfl

end ManualAgents
